import Mathlib

/-!
Verification of the hotel reservation system (`reservation_system.py`).

The program manages three JSON-backed dictionary stores (hotels, customers,
reservations).  Each public operation performs a full load of the relevant
store(s), mutates the loaded mapping, and saves it back.  We embed each store
as an association list from string keys to records, and each operation as a
pure function from the pre-state to the post-state paired with the boolean
result the Python function returns.  Python dictionaries are modelled with
first-occurrence lookup, in-place overwrite on insert of an existing key,
and append on insert of a fresh key, which matches dict semantics for every
property below (the stores never hold duplicate keys along any execution,
and every lemma here is proved for arbitrary lists anyway).

`load_data` reads a file that may be absent, malformed JSON, or a valid
mapping; the embedding makes the file content explicit as a `FileContent`
value and returns the loaded mapping together with a flag recording whether
the diagnostic message for a parse failure was printed.  Being a total Lean
function, it models the documented contract that `load_data` never raises.

Room counts are Python ints, embedded as `Int`: the source performs no
validation or coercion of the `rooms` argument in `create_hotel` or
`modify_hotel`, so negative values flow into the store unchanged.
-/

namespace RS

/-- A hotel record: `{"name": ..., "location": ..., "rooms": ...}`. -/
structure HotelRec where
  name : String
  location : String
  rooms : Int
  deriving DecidableEq, Repr

/-- A customer record: `{"name": ..., "email": ...}`. -/
structure CustomerRec where
  name : String
  email : String
  deriving DecidableEq, Repr

/-- A reservation record: `{"customer_id": ..., "hotel_id": ...}`. -/
structure ReservationRec where
  customer_id : String
  hotel_id : String
  deriving DecidableEq, Repr

/-- A persisted store: a mapping from string identifiers to records,
embedded as an association list. -/
abbrev Store (α : Type) := List (String × α)

/-- First-occurrence lookup, modelling `data[key]` / `data.get(key)`. -/
def lookup {α : Type} : Store α → String → Option α
  | [], _ => none
  | (k, v) :: rest, key => if k = key then some v else lookup rest key

/-- Membership test, modelling `key in data`. -/
def contains {α : Type} (m : Store α) (k : String) : Bool :=
  (lookup m k).isSome

/-- Assignment `data[key] = v`: overwrites the existing binding in place,
or appends a new binding when the key is fresh. -/
def insert {α : Type} : Store α → String → α → Store α
  | [], k, v => [(k, v)]
  | (k', v') :: rest, k, v =>
      if k' = k then (k, v) :: rest else (k', v') :: insert rest k v

/-- Deletion `del data[key]`: removes the first binding for the key. -/
def erase {α : Type} : Store α → String → Store α
  | [], _ => []
  | (k', v') :: rest, k => if k' = k then rest else (k', v') :: erase rest k

/-- The content of a persisted JSON file, as seen by `load_data`:
absent on disk, present but not valid JSON, or a valid mapping. -/
inductive FileContent (α : Type) where
  | absent : FileContent α
  | malformed : FileContent α
  | valid : Store α → FileContent α
  deriving DecidableEq

/-- `load_data(filename)`: returns `{}` when the file does not exist;
returns `{}` and prints a diagnostic when the JSON is malformed (the
`except json.JSONDecodeError` branch); otherwise returns the parsed
mapping.  The boolean records whether the diagnostic was printed; the
function is total, so no fault reaches the caller. -/
def load_data {α : Type} : FileContent α → Store α × Bool
  | FileContent.absent => ([], false)
  | FileContent.malformed => ([], true)
  | FileContent.valid m => (m, false)

/-- `Hotel.create_hotel`: fails if the id is already present, otherwise
inserts the record built from the raw arguments (no validation of
`rooms`). -/
def create_hotel (store : Store HotelRec) (hotel_id nm loc : String)
    (rooms : Int) : Store HotelRec × Bool :=
  if contains store hotel_id then (store, false)
  else (insert store hotel_id ⟨nm, loc, rooms⟩, true)

/-- `Hotel.modify_hotel`: fails if the id is absent, otherwise overwrites
each field for which an argument was supplied (`is not None`), one at a
time, and saves. -/
def modify_hotel (store : Store HotelRec) (hotel_id : String)
    (nm loc : Option String) (rooms : Option Int) : Store HotelRec × Bool :=
  match lookup store hotel_id with
  | none => (store, false)
  | some h =>
      let h1 := match nm with
        | some x => { h with name := x }
        | none => h
      let h2 := match loc with
        | some x => { h1 with location := x }
        | none => h1
      let h3 := match rooms with
        | some x => { h2 with rooms := x }
        | none => h2
      (insert store hotel_id h3, true)

/-- `Hotel.reserve_room`: fails if the id is absent or the stored `rooms`
is not `> 0`; otherwise decrements `rooms` by one and saves. -/
def reserve_room (store : Store HotelRec) (hotel_id : String) :
    Store HotelRec × Bool :=
  match lookup store hotel_id with
  | none => (store, false)
  | some h =>
      if h.rooms > 0 then
        (insert store hotel_id { h with rooms := h.rooms - 1 }, true)
      else (store, false)

/-- `Hotel.cancel_room`: fails if the id is absent; otherwise increments
`rooms` by one (no upper bound) and saves. -/
def cancel_room (store : Store HotelRec) (hotel_id : String) :
    Store HotelRec × Bool :=
  match lookup store hotel_id with
  | none => (store, false)
  | some h => (insert store hotel_id { h with rooms := h.rooms + 1 }, true)

/-- `Customer.create_customer`: fails if the id is already present,
otherwise inserts the record. -/
def create_customer (store : Store CustomerRec) (customer_id nm email : String) :
    Store CustomerRec × Bool :=
  if contains store customer_id then (store, false)
  else (insert store customer_id ⟨nm, email⟩, true)

/-- `Customer.modify_customer`: fails if the id is absent, otherwise
overwrites each supplied field and saves. -/
def modify_customer (store : Store CustomerRec) (customer_id : String)
    (nm email : Option String) : Store CustomerRec × Bool :=
  match lookup store customer_id with
  | none => (store, false)
  | some c =>
      let c1 := match nm with
        | some x => { c with name := x }
        | none => c
      let c2 := match email with
        | some x => { c1 with email := x }
        | none => c1
      (insert store customer_id c2, true)

/-- The combined persisted state: the three independent stores. -/
structure SysState where
  hotels : Store HotelRec
  customers : Store CustomerRec
  reservations : Store ReservationRec
  deriving DecidableEq

/-- `Reservation.create_reservation`: loads all three stores; fails if the
reservation id exists, then if the customer is absent, then if the hotel is
absent; then calls `Hotel.reserve_room` (its own load/save of the hotel
store) and, only if that succeeded, inserts the reservation record and
saves the reservation store. -/
def create_reservation (s : SysState) (reservation_id customer_id hotel_id : String) :
    SysState × Bool :=
  if contains s.reservations reservation_id then (s, false)
  else if ¬ contains s.customers customer_id then (s, false)
  else if ¬ contains s.hotels hotel_id then (s, false)
  else
    let res := reserve_room s.hotels hotel_id
    if res.2 then
      ({ s with
          hotels := res.1,
          reservations := insert s.reservations reservation_id
            ⟨customer_id, hotel_id⟩ }, true)
    else ({ s with hotels := res.1 }, false)

/-- `Reservation.cancel_reservation`: fails if the reservation id is
absent; otherwise calls `Hotel.cancel_room` on the referenced hotel with
the result ignored, removes the reservation record, and saves. -/
def cancel_reservation (s : SysState) (reservation_id : String) :
    SysState × Bool :=
  match lookup s.reservations reservation_id with
  | none => (s, false)
  | some r =>
      let res := cancel_room s.hotels r.hotel_id
      ({ s with
          hotels := res.1,
          reservations := erase s.reservations reservation_id }, true)

/-- The room count stored for a hotel id, if present. -/
def roomCount (store : Store HotelRec) (hotel_id : String) : Option Int :=
  (lookup store hotel_id).map (fun h => h.rooms)

/-- Every record in the hotel store has a non-negative room count. -/
def RoomsNonneg (store : Store HotelRec) : Prop :=
  ∀ p ∈ store, 0 ≤ p.2.rooms

instance (store : Store HotelRec) : Decidable (RoomsNonneg store) :=
  inferInstanceAs (Decidable (∀ p ∈ store, 0 ≤ p.2.rooms))

/-! ### Lemmas about the store primitives -/

theorem lookup_insert_self {α : Type} (m : Store α) (k : String) (v : α) :
    lookup (insert m k v) k = some v := by
  induction m with
  | nil => simp [insert, lookup]
  | cons p rest ih =>
      obtain ⟨k', v'⟩ := p
      by_cases h : k' = k
      · simp [insert, h, lookup]
      · simp [insert, h, lookup, ih]

theorem lookup_insert_ne {α : Type} (m : Store α) (k k2 : String) (v : α)
    (h : k2 ≠ k) : lookup (insert m k v) k2 = lookup m k2 := by
  induction m with
  | nil =>
      have hne : k ≠ k2 := Ne.symm h
      simp [insert, lookup, hne]
  | cons p rest ih =>
      obtain ⟨k', v'⟩ := p
      by_cases hk : k' = k
      · subst hk
        have hne : k' ≠ k2 := Ne.symm h
        simp [insert, lookup, hne]
      · by_cases hk2 : k' = k2
        · subst hk2
          simp [insert, hk, lookup]
        · simp [insert, hk, lookup, hk2, ih]

theorem lookup_mem {α : Type} (m : Store α) (k : String) (v : α)
    (h : lookup m k = some v) : (k, v) ∈ m := by
  induction m with
  | nil => simp [lookup] at h
  | cons p rest ih =>
      obtain ⟨k', v'⟩ := p
      by_cases hk : k' = k
      · subst hk
        simp [lookup] at h
        subst h
        exact List.mem_cons_self _ _
      · simp [lookup, hk] at h
        exact List.mem_cons_of_mem _ (ih h)

theorem mem_insert {α : Type} (m : Store α) (k : String) (v : α)
    (p : String × α) (h : p ∈ insert m k v) : p = (k, v) ∨ p ∈ m := by
  induction m with
  | nil => simp [insert] at h; simp [h]
  | cons q rest ih =>
      obtain ⟨k', v'⟩ := q
      by_cases hk : k' = k
      · simp [insert, hk] at h
        rcases h with h | h
        · exact Or.inl h
        · exact Or.inr (List.mem_cons_of_mem _ h)
      · simp [insert, hk] at h
        rcases h with h | h
        · exact Or.inr (by simp [h])
        · rcases ih h with h2 | h2
          · exact Or.inl h2
          · exact Or.inr (List.mem_cons_of_mem _ h2)

theorem insert_lookup_self {α : Type} (m : Store α) (k : String) (v : α)
    (h : lookup m k = some v) : insert m k v = m := by
  induction m with
  | nil => simp [lookup] at h
  | cons p rest ih =>
      obtain ⟨k', v'⟩ := p
      by_cases hk : k' = k
      · subst hk
        simp [lookup] at h
        simp [insert, h]
      · simp [lookup, hk] at h
        simp [insert, hk, ih h]

theorem contains_true_iff {α : Type} (m : Store α) (k : String) :
    contains m k = true ↔ ∃ v, lookup m k = some v := by
  simp [contains, Option.isSome_iff_exists]

theorem contains_false_iff {α : Type} (m : Store α) (k : String) :
    contains m k = false ↔ lookup m k = none := by
  cases hl : lookup m k <;> simp [contains, hl]

/-! ### Equation lemmas for the individual operations -/

theorem reserve_room_eq_of_none (store : Store HotelRec) (hid : String)
    (hl : lookup store hid = none) : reserve_room store hid = (store, false) := by
  simp [reserve_room, hl]

theorem reserve_room_eq_of_pos (store : Store HotelRec) (hid : String)
    (hr : HotelRec) (hl : lookup store hid = some hr) (hpos : 0 < hr.rooms) :
    reserve_room store hid =
      (insert store hid { hr with rooms := hr.rooms - 1 }, true) := by
  simp [reserve_room, hl, hpos]

theorem reserve_room_eq_of_nonpos (store : Store HotelRec) (hid : String)
    (hr : HotelRec) (hl : lookup store hid = some hr) (hle : hr.rooms ≤ 0) :
    reserve_room store hid = (store, false) := by
  simp [reserve_room, hl, not_lt.mpr hle]

theorem reserve_room_success (store : Store HotelRec) (hid : String)
    (h : (reserve_room store hid).2 = true) :
    ∃ hr, lookup store hid = some hr ∧ 0 < hr.rooms ∧
      (reserve_room store hid).1 =
        insert store hid { hr with rooms := hr.rooms - 1 } := by
  cases hl : lookup store hid with
  | none => rw [reserve_room_eq_of_none store hid hl] at h; simp at h
  | some hr =>
      by_cases hpos : 0 < hr.rooms
      · exact ⟨hr, rfl, hpos, by rw [reserve_room_eq_of_pos store hid hr hl hpos]⟩
      · rw [reserve_room_eq_of_nonpos store hid hr hl (not_lt.mp hpos)] at h
        simp at h

theorem reserve_room_fail (store : Store HotelRec) (hid : String)
    (h : (reserve_room store hid).2 = false) :
    (reserve_room store hid).1 = store := by
  cases hl : lookup store hid with
  | none => rw [reserve_room_eq_of_none store hid hl]
  | some hr =>
      by_cases hpos : 0 < hr.rooms
      · rw [reserve_room_eq_of_pos store hid hr hl hpos] at h; simp at h
      · rw [reserve_room_eq_of_nonpos store hid hr hl (not_lt.mp hpos)]

theorem cancel_room_eq_of_none (store : Store HotelRec) (hid : String)
    (hl : lookup store hid = none) : cancel_room store hid = (store, false) := by
  simp [cancel_room, hl]

theorem cancel_room_eq_of_some (store : Store HotelRec) (hid : String)
    (hr : HotelRec) (hl : lookup store hid = some hr) :
    cancel_room store hid =
      (insert store hid { hr with rooms := hr.rooms + 1 }, true) := by
  simp [cancel_room, hl]

theorem create_reservation_eq_of_dup (s : SysState) (rid cid hid : String)
    (h1 : contains s.reservations rid = true) :
    create_reservation s rid cid hid = (s, false) := by
  simp [create_reservation, h1]

theorem create_reservation_eq_of_no_customer (s : SysState) (rid cid hid : String)
    (h1 : contains s.reservations rid = false)
    (h2 : contains s.customers cid = false) :
    create_reservation s rid cid hid = (s, false) := by
  simp [create_reservation, h1, h2]

theorem create_reservation_eq_of_no_hotel (s : SysState) (rid cid hid : String)
    (h1 : contains s.reservations rid = false)
    (h2 : contains s.customers cid = true)
    (h3 : contains s.hotels hid = false) :
    create_reservation s rid cid hid = (s, false) := by
  simp [create_reservation, h1, h2, h3]

theorem create_reservation_eq_of_ok (s : SysState) (rid cid hid : String)
    (hrec : HotelRec)
    (h1 : contains s.reservations rid = false)
    (h2 : contains s.customers cid = true)
    (h3 : lookup s.hotels hid = some hrec) (hpos : 0 < hrec.rooms) :
    create_reservation s rid cid hid =
      ({ s with
          hotels := insert s.hotels hid { hrec with rooms := hrec.rooms - 1 },
          reservations := insert s.reservations rid ⟨cid, hid⟩ }, true) := by
  have hc3 : contains s.hotels hid = true := (contains_true_iff _ _).mpr ⟨hrec, h3⟩
  simp [create_reservation, h1, h2, hc3, reserve_room_eq_of_pos s.hotels hid hrec h3 hpos]

theorem create_reservation_eq_of_full (s : SysState) (rid cid hid : String)
    (hrec : HotelRec)
    (h1 : contains s.reservations rid = false)
    (h2 : contains s.customers cid = true)
    (h3 : lookup s.hotels hid = some hrec) (hle : hrec.rooms ≤ 0) :
    create_reservation s rid cid hid = (s, false) := by
  have hc3 : contains s.hotels hid = true := (contains_true_iff _ _).mpr ⟨hrec, h3⟩
  simp [create_reservation, h1, h2, hc3,
    reserve_room_eq_of_nonpos s.hotels hid hrec h3 hle]

theorem create_reservation_success (s : SysState) (rid cid hid : String)
    (h : (create_reservation s rid cid hid).2 = true) :
    contains s.reservations rid = false ∧ contains s.customers cid = true ∧
    ∃ hrec, lookup s.hotels hid = some hrec ∧ 0 < hrec.rooms ∧
      (create_reservation s rid cid hid).1 =
        { s with
            hotels := insert s.hotels hid { hrec with rooms := hrec.rooms - 1 },
            reservations := insert s.reservations rid ⟨cid, hid⟩ } := by
  by_cases h1 : contains s.reservations rid
  · rw [create_reservation_eq_of_dup s rid cid hid h1] at h; simp at h
  · have h1f : contains s.reservations rid = false := by
      simpa using h1
    by_cases h2 : contains s.customers cid
    · cases hl : lookup s.hotels hid with
      | none =>
          rw [create_reservation_eq_of_no_hotel s rid cid hid h1f h2
            ((contains_false_iff _ _).mpr hl)] at h
          simp at h
      | some hrec =>
          by_cases hpos : 0 < hrec.rooms
          · refine ⟨h1f, h2, hrec, rfl, hpos, ?_⟩
            rw [create_reservation_eq_of_ok s rid cid hid hrec h1f h2 hl hpos]
          · rw [create_reservation_eq_of_full s rid cid hid hrec h1f h2 hl
              (not_lt.mp hpos)] at h
            simp at h
    · have h2f : contains s.customers cid = false := by simpa using h2
      rw [create_reservation_eq_of_no_customer s rid cid hid h1f h2f] at h
      simp at h

theorem cancel_reservation_eq_of_none (s : SysState) (rid : String)
    (hl : lookup s.reservations rid = none) :
    cancel_reservation s rid = (s, false) := by
  simp [cancel_reservation, hl]

theorem cancel_reservation_eq_of_some (s : SysState) (rid : String)
    (r : ReservationRec) (hl : lookup s.reservations rid = some r) :
    cancel_reservation s rid =
      ({ s with
          hotels := (cancel_room s.hotels r.hotel_id).1,
          reservations := erase s.reservations rid }, true) := by
  simp [cancel_reservation, hl]

theorem modify_hotel_eq_of_none (store : Store HotelRec) (hid : String)
    (onm oloc : Option String) (orr : Option Int)
    (hl : lookup store hid = none) :
    modify_hotel store hid onm oloc orr = (store, false) := by
  simp [modify_hotel, hl]

theorem modify_hotel_eq_of_some (store : Store HotelRec) (hid : String)
    (onm oloc : Option String) (orr : Option Int) (h : HotelRec)
    (hl : lookup store hid = some h) :
    modify_hotel store hid onm oloc orr =
      (insert store hid
        ⟨onm.getD h.name, oloc.getD h.location, orr.getD h.rooms⟩, true) := by
  cases onm <;> cases oloc <;> cases orr <;> simp [modify_hotel, hl]

theorem modify_customer_eq_of_none (store : Store CustomerRec) (cid : String)
    (onm oem : Option String) (hl : lookup store cid = none) :
    modify_customer store cid onm oem = (store, false) := by
  simp [modify_customer, hl]

theorem modify_customer_eq_of_some (store : Store CustomerRec) (cid : String)
    (onm oem : Option String) (c : CustomerRec)
    (hl : lookup store cid = some c) :
    modify_customer store cid onm oem =
      (insert store cid ⟨onm.getD c.name, oem.getD c.email⟩, true) := by
  cases onm <;> cases oem <;> simp [modify_customer, hl]

/-! ### Preservation of the room-count invariant -/

theorem roomsNonneg_insert (store : Store HotelRec) (k : String) (v : HotelRec)
    (hinv : RoomsNonneg store) (hv : 0 ≤ v.rooms) :
    RoomsNonneg (insert store k v) := by
  intro p hp
  rcases mem_insert store k v p hp with h | h
  · subst h; exact hv
  · exact hinv p h

theorem roomsNonneg_reserve_room (store : Store HotelRec) (hid : String)
    (hinv : RoomsNonneg store) : RoomsNonneg (reserve_room store hid).1 := by
  cases hl : lookup store hid with
  | none => rw [reserve_room_eq_of_none store hid hl]; exact hinv
  | some hr =>
      by_cases hpos : 0 < hr.rooms
      · rw [reserve_room_eq_of_pos store hid hr hl hpos]
        exact roomsNonneg_insert store hid _ hinv (by simp; omega)
      · rw [reserve_room_eq_of_nonpos store hid hr hl (not_lt.mp hpos)]
        exact hinv

theorem roomsNonneg_cancel_room (store : Store HotelRec) (hid : String)
    (hinv : RoomsNonneg store) : RoomsNonneg (cancel_room store hid).1 := by
  cases hl : lookup store hid with
  | none => rw [cancel_room_eq_of_none store hid hl]; exact hinv
  | some hr =>
      rw [cancel_room_eq_of_some store hid hr hl]
      have h0 : 0 ≤ hr.rooms := hinv (hid, hr) (lookup_mem store hid hr hl)
      exact roomsNonneg_insert store hid _ hinv (by simp; omega)

theorem create_reservation_hotels_cases (s : SysState) (rid cid hid : String) :
    (create_reservation s rid cid hid).1.hotels = s.hotels ∨
    (create_reservation s rid cid hid).1.hotels = (reserve_room s.hotels hid).1 := by
  unfold create_reservation
  by_cases h1 : contains s.reservations rid
  · simp [h1]
  · by_cases h2 : contains s.customers cid
    · by_cases h3 : contains s.hotels hid
      · by_cases h4 : (reserve_room s.hotels hid).2 <;>
          simp [h1, h2, h3, h4]
      · simp [h1, h2, h3]
    · simp [h1, h2]

theorem cancel_reservation_hotels_cases (s : SysState) (rid : String) :
    (cancel_reservation s rid).1.hotels = s.hotels ∨
    ∃ r, lookup s.reservations rid = some r ∧
      (cancel_reservation s rid).1.hotels = (cancel_room s.hotels r.hotel_id).1 := by
  cases hl : lookup s.reservations rid with
  | none => rw [cancel_reservation_eq_of_none s rid hl]; exact Or.inl rfl
  | some r =>
      refine Or.inr ⟨r, rfl, ?_⟩
      rw [cancel_reservation_eq_of_some s rid r hl]

theorem contains_insert_self {α : Type} (m : Store α) (k : String) (v : α) :
    contains (insert m k v) k = true := by
  simp [contains, lookup_insert_self]

/-! ### Sample concrete data for witnesses -/

def sampleHotels : Store HotelRec := [(("h1"), ⟨("n"), ("l"), 2⟩)]

def sampleCustomers : Store CustomerRec := [(("c1"), ⟨("a"), ("e")⟩)]

def sampleState : SysState := ⟨sampleHotels, sampleCustomers, []⟩

/-! ### Claim theorems -/

/-- C3, counterexample to the claim as stated: the claim says `reserve_room`
fails only when the id is absent or the stored room count equals 0, and
otherwise decrements and succeeds.  In a store whose record has
`rooms = -1` (reachable, since `create_hotel` and `modify_hotel` accept
negative values unvalidated) the id is present and the count is not 0, yet
the source's `rooms > 0` guard makes the call fail and leave the store
unchanged. -/
theorem C3_counterexample :
    contains [(("h1"), (⟨("n"), ("l"), -1⟩ : HotelRec))] ("h1") = true ∧
    roomCount [(("h1"), (⟨("n"), ("l"), -1⟩ : HotelRec))] ("h1") = some (-1) ∧
    ¬ roomCount [(("h1"), (⟨("n"), ("l"), -1⟩ : HotelRec))] ("h1") = some 0 ∧
    reserve_room [(("h1"), (⟨("n"), ("l"), -1⟩ : HotelRec))] ("h1")
      = ([(("h1"), (⟨("n"), ("l"), -1⟩ : HotelRec))], false) := by
  decide

/-- C3 (amended): `reserve_room(id)` fails and leaves the store unchanged
when `id` is absent or the stored room count is `≤ 0`; when `id` is present
with room count `> 0` it decrements that count by 1 and succeeds. -/
theorem C3_reserve_room_correct (storeA storeZ storeP : Store HotelRec)
    (idA idZ idP : String) (hrZ hrP : HotelRec)
    (hA : contains storeA idA = false)
    (hZ : lookup storeZ idZ = some hrZ) (hZ0 : hrZ.rooms ≤ 0)
    (hP : lookup storeP idP = some hrP) (hP0 : 0 < hrP.rooms) :
    reserve_room storeA idA = (storeA, false) ∧
    reserve_room storeZ idZ = (storeZ, false) ∧
    reserve_room storeP idP =
      (insert storeP idP { hrP with rooms := hrP.rooms - 1 }, true) := by
  refine ⟨?_, ?_, ?_⟩
  · exact reserve_room_eq_of_none storeA idA ((contains_false_iff _ _).mp hA)
  · exact reserve_room_eq_of_nonpos storeZ idZ hrZ hZ hZ0
  · exact reserve_room_eq_of_pos storeP idP hrP hP hP0

/-- C3, witness: the amended theorem applied at concrete stores. -/
theorem C3_witness :
    contains ([] : Store HotelRec) ("h9") = false ∧
    lookup [(("h0"), (⟨("n"), ("l"), 0⟩ : HotelRec))] ("h0")
      = some ⟨("n"), ("l"), 0⟩ ∧
    lookup sampleHotels ("h1") = some ⟨("n"), ("l"), 2⟩ ∧
    (reserve_room ([] : Store HotelRec) ("h9") = ([], false) ∧
     reserve_room [(("h0"), (⟨("n"), ("l"), 0⟩ : HotelRec))] ("h0")
       = ([(("h0"), ⟨("n"), ("l"), 0⟩)], false) ∧
     reserve_room sampleHotels ("h1")
       = (insert sampleHotels ("h1") ⟨("n"), ("l"), 1⟩, true)) :=
  ⟨by decide, by decide, by decide,
    C3_reserve_room_correct [] [(("h0"), ⟨("n"), ("l"), 0⟩)] sampleHotels
      ("h9") ("h0") ("h1") ⟨("n"), ("l"), 0⟩ ⟨("n"), ("l"), 2⟩
      (by decide) (by decide) (by decide) (by decide) (by decide)⟩

/-- C4: if the customer and hotel exist, the reservation id is fresh, and
the hotel's room count is 0, then `create_reservation` fails and the whole
state — hotel store, customer store and reservation store — is returned
unchanged: no room is consumed and no reservation record is written. -/
theorem C4_create_reservation_full_hotel (s : SysState) (rid cid hid : String)
    (hrec : HotelRec)
    (h1 : contains s.reservations rid = false)
    (h2 : contains s.customers cid = true)
    (h3 : lookup s.hotels hid = some hrec)
    (h0 : hrec.rooms = 0) :
    create_reservation s rid cid hid = (s, false) :=
  create_reservation_eq_of_full s rid cid hid hrec h1 h2 h3 (le_of_eq h0)

/-- C4, witness: a concrete state with one zero-room hotel, one customer
and no reservations. -/
theorem C4_witness :
    contains (⟨[(("h0"), ⟨("n"), ("l"), 0⟩)], sampleCustomers, []⟩ :
        SysState).reservations ("r1") = false ∧
    contains (⟨[(("h0"), ⟨("n"), ("l"), 0⟩)], sampleCustomers, []⟩ :
        SysState).customers ("c1") = true ∧
    create_reservation ⟨[(("h0"), ⟨("n"), ("l"), 0⟩)], sampleCustomers, []⟩
        ("r1") ("c1") ("h0")
      = (⟨[(("h0"), ⟨("n"), ("l"), 0⟩)], sampleCustomers, []⟩, false) :=
  ⟨by decide, by decide,
    C4_create_reservation_full_hotel
      ⟨[(("h0"), ⟨("n"), ("l"), 0⟩)], sampleCustomers, []⟩
      ("r1") ("c1") ("h0") ⟨("n"), ("l"), 0⟩
      (by decide) (by decide) (by decide) (by decide)⟩

/-- C5: a `create_reservation` call whose customer id is absent from the
customer store or whose hotel id is absent from the hotel store fails and
returns the entire state unchanged — no store is mutated and no room is
decremented, because the existence checks precede the `reserve_room`
call. -/
theorem C5_create_reservation_missing_ref (s : SysState) (rid cid hid : String)
    (h : contains s.customers cid = false ∨ contains s.hotels hid = false) :
    create_reservation s rid cid hid = (s, false) := by
  by_cases h1 : contains s.reservations rid = true
  · exact create_reservation_eq_of_dup s rid cid hid h1
  · have h1f : contains s.reservations rid = false := by
      simpa using h1
    rcases h with h2 | h3
    · exact create_reservation_eq_of_no_customer s rid cid hid h1f h2
    · by_cases h2 : contains s.customers cid = true
      · exact create_reservation_eq_of_no_hotel s rid cid hid h1f h2 h3
      · exact create_reservation_eq_of_no_customer s rid cid hid h1f
          (by simpa using h2)

/-- C5, witness: creating a reservation for a missing customer id on the
sample state fails and leaves the state unchanged. -/
theorem C5_witness :
    (contains sampleState.customers ("c9") = false ∨
      contains sampleState.hotels ("h1") = false) ∧
    create_reservation sampleState ("r1") ("c9") ("h1") = (sampleState, false) :=
  ⟨Or.inl (by decide),
    C5_create_reservation_missing_ref sampleState ("r1") ("c9") ("h1")
      (Or.inl (by decide))⟩

/-- C6: cancelling a reservation whose referenced hotel id is absent from
the hotel store still succeeds: `cancel_room` fails and is ignored, the
hotel store is left untouched, and the reservation record is removed. -/
theorem C6_cancel_dangling_reservation (s : SysState) (rid : String)
    (r : ReservationRec)
    (hres : lookup s.reservations rid = some r)
    (hhot : contains s.hotels r.hotel_id = false) :
    cancel_reservation s rid =
      ({ s with reservations := erase s.reservations rid }, true) := by
  rw [cancel_reservation_eq_of_some s rid r hres,
    cancel_room_eq_of_none s.hotels r.hotel_id ((contains_false_iff _ _).mp hhot)]

/-- C6, witness: a state whose only reservation references a hotel id that
is not in the hotel store. -/
theorem C6_witness :
    lookup (⟨sampleHotels, sampleCustomers,
        [(("r1"), ⟨("c1"), ("hGone")⟩)]⟩ : SysState).reservations ("r1")
      = some ⟨("c1"), ("hGone")⟩ ∧
    cancel_reservation
        ⟨sampleHotels, sampleCustomers, [(("r1"), ⟨("c1"), ("hGone")⟩)]⟩ ("r1")
      = (⟨sampleHotels, sampleCustomers, []⟩, true) :=
  ⟨by decide,
    C6_cancel_dangling_reservation
      ⟨sampleHotels, sampleCustomers, [(("r1"), ⟨("c1"), ("hGone")⟩)]⟩
      ("r1") ⟨("c1"), ("hGone")⟩ (by decide) (by decide)⟩

/-- C1, counterexample to the claim as stated: the claim says every
operation that writes the hotel store preserves non-negativity of the
stored rooms value, but `create_hotel` (like `modify_hotel`) stores the
caller's `rooms` argument without validation, so calling it with `-1` on a
store satisfying the invariant produces a store violating it. -/
theorem C1_counterexample :
    RoomsNonneg ([] : Store HotelRec) ∧
    (create_hotel [] ("h1") ("n") ("l") (-1)).2 = true ∧
    ¬ RoomsNonneg (create_hotel [] ("h1") ("n") ("l") (-1)).1 := by
  decide

/-- C1 (amended): provided the `rooms` arguments supplied to `create_hotel`
and `modify_hotel` are non-negative, each of `create_hotel`, `modify_hotel`,
`reserve_room`, `cancel_room`, `create_reservation` and `cancel_reservation`
preserves non-negativity of every stored room count, and `reserve_room`
decrements only when the current stored value is `> 0`. -/
theorem C1_rooms_invariant (store : Store HotelRec) (s : SysState)
    (id nm loc : String) (r : Int)
    (onm oloc : Option String) (orr : Option Int)
    (rid cid hid : String)
    (hinv : RoomsNonneg store) (hs : RoomsNonneg s.hotels)
    (hr : 0 ≤ r) (horr : ∀ x, orr = some x → 0 ≤ x) :
    RoomsNonneg (create_hotel store id nm loc r).1 ∧
    RoomsNonneg (modify_hotel store id onm oloc orr).1 ∧
    RoomsNonneg (reserve_room store id).1 ∧
    RoomsNonneg (cancel_room store id).1 ∧
    ((reserve_room store id).2 = true →
      ∃ h, lookup store id = some h ∧ 0 < h.rooms) ∧
    RoomsNonneg (create_reservation s rid cid hid).1.hotels ∧
    RoomsNonneg (cancel_reservation s rid).1.hotels := by
  refine ⟨?_, ?_, roomsNonneg_reserve_room store id hinv,
    roomsNonneg_cancel_room store id hinv, ?_, ?_, ?_⟩
  · by_cases hc : contains store id = true
    · simpa [create_hotel, hc] using hinv
    · have hcf : contains store id = false := by simpa using hc
      have : (create_hotel store id nm loc r).1 = insert store id ⟨nm, loc, r⟩ := by
        simp [create_hotel, hcf]
      rw [this]
      exact roomsNonneg_insert store id _ hinv hr
  · cases hl : lookup store id with
    | none => rw [modify_hotel_eq_of_none store id onm oloc orr hl]; exact hinv
    | some h =>
        rw [modify_hotel_eq_of_some store id onm oloc orr h hl]
        have h0 : 0 ≤ h.rooms := hinv (id, h) (lookup_mem store id h hl)
        refine roomsNonneg_insert store id _ hinv ?_
        cases horr2 : orr with
        | none => simpa using h0
        | some x => simpa using horr x horr2
  · intro hsucc
    obtain ⟨h, hl, hpos, _⟩ := reserve_room_success store id hsucc
    exact ⟨h, hl, hpos⟩
  · rcases create_reservation_hotels_cases s rid cid hid with he | he
    · rw [he]; exact hs
    · rw [he]; exact roomsNonneg_reserve_room s.hotels hid hs
  · rcases cancel_reservation_hotels_cases s rid with he | ⟨r2, _, he⟩
    · rw [he]; exact hs
    · rw [he]; exact roomsNonneg_cancel_room s.hotels r2.hotel_id hs

/-- C1, witness: the amended invariant theorem applied at the sample
store and state. -/
theorem C1_witness :
    RoomsNonneg sampleHotels ∧ RoomsNonneg sampleState.hotels ∧
    (RoomsNonneg (create_hotel sampleHotels ("h1") ("m") ("p") 3).1 ∧
     RoomsNonneg (modify_hotel sampleHotels ("h1") none none none).1 ∧
     RoomsNonneg (reserve_room sampleHotels ("h1")).1 ∧
     RoomsNonneg (cancel_room sampleHotels ("h1")).1 ∧
     ((reserve_room sampleHotels ("h1")).2 = true →
       ∃ h, lookup sampleHotels ("h1") = some h ∧ 0 < h.rooms) ∧
     RoomsNonneg (create_reservation sampleState ("r1") ("c1") ("h1")).1.hotels ∧
     RoomsNonneg (cancel_reservation sampleState ("r1")).1.hotels) :=
  ⟨by decide, by decide,
    C1_rooms_invariant sampleHotels sampleState ("h1") ("m") ("p") 3
      none none none ("r1") ("c1") ("h1")
      (by decide) (by decide) (by decide) (fun x hx => nomatch hx)⟩

/-- C2: a successful `create_reservation` leaves the referenced hotel's
room count exactly one less than before; a successful `cancel_reservation`
on a reservation whose hotel still exists leaves it exactly one more; and
a successful create followed by its cancel restores the original count. -/
theorem C2_room_count_delta (s : SysState) (rid cid hid : String)
    (s2 : SysState) (rid2 : String) (r2 : ReservationRec) (n : Int)
    (hsucc : (create_reservation s rid cid hid).2 = true)
    (hres2 : lookup s2.reservations rid2 = some r2)
    (hn : roomCount s2.hotels r2.hotel_id = some n) :
    (∃ m, roomCount s.hotels hid = some m ∧
        roomCount (create_reservation s rid cid hid).1.hotels hid
          = some (m - 1)) ∧
    (cancel_reservation s2 rid2).2 = true ∧
    roomCount (cancel_reservation s2 rid2).1.hotels r2.hotel_id
      = some (n + 1) ∧
    (cancel_reservation (create_reservation s rid cid hid).1 rid).2 = true ∧
    roomCount
        (cancel_reservation (create_reservation s rid cid hid).1 rid).1.hotels
        hid
      = roomCount s.hotels hid := by
  obtain ⟨h1f, h2t, hrec, hl, hpos, heq⟩ :=
    create_reservation_success s rid cid hid hsucc
  obtain ⟨hr2, hl2, hn2⟩ :
      ∃ hr2, lookup s2.hotels r2.hotel_id = some hr2 ∧ hr2.rooms = n := by
    unfold roomCount at hn
    cases hl2 : lookup s2.hotels r2.hotel_id with
    | none => rw [hl2] at hn; simp at hn
    | some hr2 =>
        rw [hl2] at hn
        simp at hn
        exact ⟨hr2, rfl, hn⟩
  have hcanc2 := cancel_reservation_eq_of_some s2 rid2 r2 hres2
  have hroom2 := cancel_room_eq_of_some s2.hotels r2.hotel_id hr2 hl2
  have hres' : lookup (create_reservation s rid cid hid).1.reservations rid
      = some ⟨cid, hid⟩ := by
    rw [heq]
    exact lookup_insert_self s.reservations rid ⟨cid, hid⟩
  have hhot' : lookup (create_reservation s rid cid hid).1.hotels hid
      = some { hrec with rooms := hrec.rooms - 1 } := by
    rw [heq]
    exact lookup_insert_self s.hotels hid _
  have hcanc3 :=
    cancel_reservation_eq_of_some (create_reservation s rid cid hid).1 rid
      ⟨cid, hid⟩ hres'
  have hroom3 :=
    cancel_room_eq_of_some (create_reservation s rid cid hid).1.hotels hid
      { hrec with rooms := hrec.rooms - 1 } hhot'
  refine ⟨⟨hrec.rooms, by simp [roomCount, hl], ?_⟩, ?_, ?_, ?_, ?_⟩
  · rw [heq]
    simp [roomCount, lookup_insert_self]
  · rw [hcanc2]
  · rw [hcanc2]
    show roomCount (cancel_room s2.hotels r2.hotel_id).1 r2.hotel_id
      = some (n + 1)
    rw [hroom2]
    simp [roomCount, lookup_insert_self, hn2]
  · rw [hcanc3]
  · rw [hcanc3]
    show roomCount
        (cancel_room (create_reservation s rid cid hid).1.hotels hid).1 hid
      = roomCount s.hotels hid
    rw [hroom3]
    simp [roomCount, lookup_insert_self, hl]

/-- C2, witness: on the sample state, creating reservation r1 for customer
c1 at hotel h1 (2 rooms) and then cancelling it moves the stored room count
2 → 1 → 2; and cancelling a reservation in a state where the referenced
hotel holds 1 room yields 2. -/
theorem C2_witness :
    (create_reservation sampleState ("r1") ("c1") ("h1")).2 = true ∧
    lookup (⟨[(("h1"), ⟨("n"), ("l"), 1⟩)], sampleCustomers,
        [(("r1"), ⟨("c1"), ("h1")⟩)]⟩ : SysState).reservations ("r1")
      = some ⟨("c1"), ("h1")⟩ ∧
    roomCount (⟨[(("h1"), ⟨("n"), ("l"), 1⟩)], sampleCustomers,
        [(("r1"), ⟨("c1"), ("h1")⟩)]⟩ : SysState).hotels ("h1") = some 1 ∧
    ((∃ m, roomCount sampleState.hotels ("h1") = some m ∧
        roomCount (create_reservation sampleState ("r1") ("c1") ("h1")).1.hotels
          ("h1") = some (m - 1)) ∧
     (cancel_reservation ⟨[(("h1"), ⟨("n"), ("l"), 1⟩)], sampleCustomers,
        [(("r1"), ⟨("c1"), ("h1")⟩)]⟩ ("r1")).2 = true ∧
     roomCount (cancel_reservation ⟨[(("h1"), ⟨("n"), ("l"), 1⟩)],
        sampleCustomers, [(("r1"), ⟨("c1"), ("h1")⟩)]⟩ ("r1")).1.hotels ("h1")
       = some (1 + 1) ∧
     (cancel_reservation
        (create_reservation sampleState ("r1") ("c1") ("h1")).1 ("r1")).2
       = true ∧
     roomCount (cancel_reservation
          (create_reservation sampleState ("r1") ("c1") ("h1")).1
          ("r1")).1.hotels ("h1")
       = roomCount sampleState.hotels ("h1")) :=
  ⟨by decide, by decide, by decide,
    C2_room_count_delta sampleState ("r1") ("c1") ("h1")
      ⟨[(("h1"), ⟨("n"), ("l"), 1⟩)], sampleCustomers,
        [(("r1"), ⟨("c1"), ("h1")⟩)]⟩ ("r1") ⟨("c1"), ("h1")⟩ 1
      (by decide) (by decide) (by decide)⟩

/-- C7: for each of the three persisted resources, `load_data` on an
absent file yields the empty mapping with no diagnostic, and on malformed
content yields the empty mapping together with the parse-failure
diagnostic; `load_data` is a total function of the file content, so no
fault reaches the caller in either case. -/
theorem C7_load_data_degrades :
    load_data (FileContent.absent : FileContent HotelRec) = ([], false) ∧
    load_data (FileContent.malformed : FileContent HotelRec) = ([], true) ∧
    load_data (FileContent.absent : FileContent CustomerRec) = ([], false) ∧
    load_data (FileContent.malformed : FileContent CustomerRec) = ([], true) ∧
    load_data (FileContent.absent : FileContent ReservationRec) = ([], false) ∧
    load_data (FileContent.malformed : FileContent ReservationRec)
      = ([], true) :=
  ⟨rfl, rfl, rfl, rfl, rfl, rfl⟩

/-- C8: for both the hotel and the customer store, modify on an absent id
fails and returns the store unchanged; modify on a present id overwrites
exactly the supplied optional fields, leaves each unsupplied field at its
prior value, and leaves every other record's lookup unchanged. -/
theorem C8_modify_partial (hstoreA hstoreP : Store HotelRec)
    (cstoreA cstoreP : Store CustomerRec)
    (idA idP idcA idcP : String)
    (onm oloc : Option String) (orr : Option Int) (ocn oem : Option String)
    (h : HotelRec) (c : CustomerRec)
    (hA : contains hstoreA idA = false)
    (hP : lookup hstoreP idP = some h)
    (cA : contains cstoreA idcA = false)
    (cP : lookup cstoreP idcP = some c) :
    modify_hotel hstoreA idA onm oloc orr = (hstoreA, false) ∧
    ((modify_hotel hstoreP idP onm oloc orr).2 = true ∧
     lookup (modify_hotel hstoreP idP onm oloc orr).1 idP
       = some ⟨onm.getD h.name, oloc.getD h.location, orr.getD h.rooms⟩ ∧
     ∀ k, k ≠ idP →
       lookup (modify_hotel hstoreP idP onm oloc orr).1 k = lookup hstoreP k) ∧
    modify_customer cstoreA idcA ocn oem = (cstoreA, false) ∧
    ((modify_customer cstoreP idcP ocn oem).2 = true ∧
     lookup (modify_customer cstoreP idcP ocn oem).1 idcP
       = some ⟨ocn.getD c.name, oem.getD c.email⟩ ∧
     ∀ k, k ≠ idcP →
       lookup (modify_customer cstoreP idcP ocn oem).1 k
         = lookup cstoreP k) := by
  refine ⟨modify_hotel_eq_of_none _ _ _ _ _ ((contains_false_iff _ _).mp hA),
    ?_, modify_customer_eq_of_none _ _ _ _ ((contains_false_iff _ _).mp cA),
    ?_⟩
  · rw [modify_hotel_eq_of_some hstoreP idP onm oloc orr h hP]
    exact ⟨rfl, lookup_insert_self _ _ _,
      fun k hk => lookup_insert_ne _ _ _ _ hk⟩
  · rw [modify_customer_eq_of_some cstoreP idcP ocn oem c cP]
    exact ⟨rfl, lookup_insert_self _ _ _,
      fun k hk => lookup_insert_ne _ _ _ _ hk⟩

/-- C8, witness: modifying a missing id fails on the empty stores, and
modifying hotel h1 with only a new name (and customer c1 with only a new
email) updates that field alone and leaves other keys' lookups unchanged. -/
theorem C8_witness :
    contains ([] : Store HotelRec) ("x") = false ∧
    lookup sampleHotels ("h1") = some ⟨("n"), ("l"), 2⟩ ∧
    contains ([] : Store CustomerRec) ("y") = false ∧
    lookup sampleCustomers ("c1") = some ⟨("a"), ("e")⟩ ∧
    (modify_hotel ([] : Store HotelRec) ("x") (some ("N")) none none
        = ([], false) ∧
     ((modify_hotel sampleHotels ("h1") (some ("N")) none none).2 = true ∧
      lookup (modify_hotel sampleHotels ("h1") (some ("N")) none none).1 ("h1")
        = some ⟨(some ("N")).getD ("n"), (none : Option String).getD ("l"),
            (none : Option Int).getD 2⟩ ∧
      ∀ k, k ≠ ("h1") →
        lookup (modify_hotel sampleHotels ("h1") (some ("N")) none none).1 k
          = lookup sampleHotels k) ∧
     modify_customer ([] : Store CustomerRec) ("y") none (some ("E"))
        = ([], false) ∧
     ((modify_customer sampleCustomers ("c1") none (some ("E"))).2 = true ∧
      lookup (modify_customer sampleCustomers ("c1") none (some ("E"))).1 ("c1")
        = some ⟨(none : Option String).getD ("a"), (some ("E")).getD ("e")⟩ ∧
      ∀ k, k ≠ ("c1") →
        lookup (modify_customer sampleCustomers ("c1") none (some ("E"))).1 k
          = lookup sampleCustomers k)) :=
  ⟨by decide, by decide, by decide, by decide,
    C8_modify_partial [] sampleHotels [] sampleCustomers
      ("x") ("h1") ("y") ("c1") (some ("N")) none none none (some ("E"))
      ⟨("n"), ("l"), 2⟩ ⟨("a"), ("e")⟩
      (by decide) (by decide) (by decide) (by decide)⟩

/-- C9: for each entity type, creating twice with the same identifier from
a state not containing it: the first call succeeds and writes exactly its
record, the second call fails and changes nothing.  For reservations the
first call's success additionally requires an existing customer and a
hotel with a positive room count. -/
theorem C9_duplicate_create (hstore : Store HotelRec)
    (cstore : Store CustomerRec) (s : SysState)
    (idh idc rid cid hid : String)
    (nm loc cn em nm2 loc2 cn2 em2 : String)
    (r r2 : Int) (cid2 hid2 : String) (hr : HotelRec)
    (hh : contains hstore idh = false)
    (hc : contains cstore idc = false)
    (hres : contains s.reservations rid = false)
    (hcust : contains s.customers cid = true)
    (hhot : lookup s.hotels hid = some hr) (hpos : 0 < hr.rooms) :
    create_hotel hstore idh nm loc r = (insert hstore idh ⟨nm, loc, r⟩, true) ∧
    create_hotel (insert hstore idh ⟨nm, loc, r⟩) idh nm2 loc2 r2
      = (insert hstore idh ⟨nm, loc, r⟩, false) ∧
    create_customer cstore idc cn em = (insert cstore idc ⟨cn, em⟩, true) ∧
    create_customer (insert cstore idc ⟨cn, em⟩) idc cn2 em2
      = (insert cstore idc ⟨cn, em⟩, false) ∧
    (create_reservation s rid cid hid).2 = true ∧
    (create_reservation s rid cid hid).1.reservations
      = insert s.reservations rid ⟨cid, hid⟩ ∧
    create_reservation (create_reservation s rid cid hid).1 rid cid2 hid2
      = ((create_reservation s rid cid hid).1, false) := by
  have hok := create_reservation_eq_of_ok s rid cid hid hr hres hcust hhot hpos
  refine ⟨?_, ?_, ?_, ?_, ?_, ?_, ?_⟩
  · simp [create_hotel, hh]
  · simp [create_hotel, contains_insert_self]
  · simp [create_customer, hc]
  · simp [create_customer, contains_insert_self]
  · rw [hok]
  · rw [hok]
  · refine create_reservation_eq_of_dup (create_reservation s rid cid hid).1
      rid cid2 hid2 ?_
    rw [hok]
    exact contains_insert_self s.reservations rid ⟨cid, hid⟩

/-- C9, witness: duplicate hotel, customer and reservation creation on the
sample data. -/
theorem C9_witness :
    contains ([] : Store HotelRec) ("h1") = false ∧
    contains ([] : Store CustomerRec) ("c1") = false ∧
    contains sampleState.reservations ("r1") = false ∧
    contains sampleState.customers ("c1") = true ∧
    lookup sampleState.hotels ("h1") = some ⟨("n"), ("l"), 2⟩ ∧
    (create_hotel ([] : Store HotelRec) ("h1") ("n") ("l") 2
        = (insert [] ("h1") ⟨("n"), ("l"), 2⟩, true) ∧
     create_hotel (insert [] ("h1") ⟨("n"), ("l"), 2⟩) ("h1") ("m") ("p") 7
        = (insert [] ("h1") ⟨("n"), ("l"), 2⟩, false) ∧
     create_customer ([] : Store CustomerRec) ("c1") ("a") ("e")
        = (insert [] ("c1") ⟨("a"), ("e")⟩, true) ∧
     create_customer (insert [] ("c1") ⟨("a"), ("e")⟩) ("c1") ("b") ("f")
        = (insert [] ("c1") ⟨("a"), ("e")⟩, false) ∧
     (create_reservation sampleState ("r1") ("c1") ("h1")).2 = true ∧
     (create_reservation sampleState ("r1") ("c1") ("h1")).1.reservations
        = insert sampleState.reservations ("r1") ⟨("c1"), ("h1")⟩ ∧
     create_reservation (create_reservation sampleState ("r1") ("c1")
          ("h1")).1 ("r1") ("c2") ("h2")
        = ((create_reservation sampleState ("r1") ("c1") ("h1")).1, false)) :=
  ⟨by decide, by decide, by decide, by decide, by decide,
    C9_duplicate_create [] [] sampleState ("h1") ("c1") ("r1") ("c1") ("h1")
      ("n") ("l") ("a") ("e") ("m") ("p") ("b") ("f") 2 7 ("c2") ("h2")
      ⟨("n"), ("l"), 2⟩
      (by decide) (by decide) (by decide) (by decide) (by decide) (by decide)⟩

/-- C10: modifying an existing hotel or customer with no optional field
supplied succeeds and returns the store exactly unchanged (the source
still saves, but the saved mapping is identical). -/
theorem C10_modify_all_none (hstore : Store HotelRec)
    (cstore : Store CustomerRec) (id idc : String)
    (h : HotelRec) (c : CustomerRec)
    (hh : lookup hstore id = some h) (hc : lookup cstore idc = some c) :
    modify_hotel hstore id none none none = (hstore, true) ∧
    modify_customer cstore idc none none = (cstore, true) := by
  constructor
  · have e := modify_hotel_eq_of_some hstore id none none none h hh
    have h2 : (⟨(none : Option String).getD h.name,
        (none : Option String).getD h.location,
        (none : Option Int).getD h.rooms⟩ : HotelRec) = h := rfl
    rw [h2] at e
    rwa [insert_lookup_self hstore id h hh] at e
  · have e := modify_customer_eq_of_some cstore idc none none c hc
    have c2 : (⟨(none : Option String).getD c.name,
        (none : Option String).getD c.email⟩ : CustomerRec) = c := rfl
    rw [c2] at e
    rwa [insert_lookup_self cstore idc c hc] at e

/-- C10, witness: the no-field modify on the sample hotel and customer
stores returns them unchanged with success. -/
theorem C10_witness :
    lookup sampleHotels ("h1") = some ⟨("n"), ("l"), 2⟩ ∧
    lookup sampleCustomers ("c1") = some ⟨("a"), ("e")⟩ ∧
    modify_hotel sampleHotels ("h1") none none none = (sampleHotels, true) ∧
    modify_customer sampleCustomers ("c1") none none
      = (sampleCustomers, true) :=
  ⟨by decide, by decide,
    (C10_modify_all_none sampleHotels sampleCustomers ("h1") ("c1")
      ⟨("n"), ("l"), 2⟩ ⟨("a"), ("e")⟩ (by decide) (by decide)).1,
    (C10_modify_all_none sampleHotels sampleCustomers ("h1") ("c1")
      ⟨("n"), ("l"), 2⟩ ⟨("a"), ("e")⟩ (by decide) (by decide)).2⟩

end RS
